import Mathlib

/-!
Verification of the smgo parser of SemanticMergeGO.

The file shallowly embeds src/smgo/parser.go: the data model (Location,
LocationSpan, RuneSpan, Node, Container, File, ParsingError, block), the
entry function Parse, the AST walker (fileVisitor.Visit, createFile,
createFunc), and — modelled from the design document, because that source
file is not part of the provided sources — the boundary-fixing pass
fixBlockBoundaries with its byte-offset-to-rune-offset translator.

The native Go parser (go/parser, go/token) is an external black box: it is
embedded as an explicit function argument producing either a parse error
(carrying position and diagnostic text) or an AST value in which every
token position has already been resolved through the FileSet to a
(line, column, byte-offset) triple, exactly the data parser.go extracts
with fset.Position.
-/

namespace smgo

/-- Location of the data model: line and column as Go ints (1-based lines;
column 0 is a valid sentinel).  Go type smgo.Location, fields Line, Column. -/
structure Location where
  line : Int
  column : Int
deriving DecidableEq

/-- LocationSpan of the data model.  Go fields Start, End; the Go field End
is called stop here because end is reserved in Lean. -/
structure LocationSpan where
  start : Location
  stop : Location
deriving DecidableEq

/-- RuneSpan: half-open character-offset range; stop smaller than start
(such as the literal with start 0 and stop -1) is the absent-span sentinel.
Go fields Start, End (End is called stop here). -/
structure RuneSpan where
  start : Int
  stop : Int
deriving DecidableEq

/-- Node kinds of the data model.  The Go constants PackageNode and
FunctionNode are produced by parser.go; ConstNode, ImportNode and FieldNode
appear in the repository tests (the type-declaration source file is not
among the provided sources, so the constructor set follows those uses). -/
inductive NodeType where
  | PackageNode
  | FunctionNode
  | ConstNode
  | ImportNode
  | FieldNode
deriving DecidableEq

/-- Container kinds; StructContainer appears in the repository tests. -/
inductive ContainerType where
  | StructContainer
  | InterfaceContainer
deriving DecidableEq

/-- Node: a leaf declaration.  Go fields Type, Name, LocationSpan, Span. -/
structure Node where
  type : NodeType
  name : String
  locationSpan : LocationSpan
  span : RuneSpan
deriving DecidableEq

/-- Container: a composite declaration owning nested containers and nodes.
Recursive, hence an inductive; the fields are, in order: type, name,
locationSpan, headerSpan, footerSpan, containers, nodes. -/
inductive Container where
  | mk : ContainerType → String → LocationSpan → RuneSpan → RuneSpan →
      List Container → List Node → Container

/-- ParsingError of the data model.  Go fields Location, Message. -/
structure ParsingError where
  location : Location
  message : String
deriving DecidableEq

/-- File: the root of the declarations tree.  Go fields LocationSpan,
FooterSpan, Containers, Nodes, ParsingErrors; the Go nil slice is embedded
as the empty list (parser.go only ever builds nil or, for ParsingErrors on
a failed parse, a one-element slice). -/
structure File where
  locationSpan : LocationSpan
  footerSpan : RuneSpan
  containers : List Container
  nodes : List Node
  parsingErrors : List ParsingError

/-- blockType of the internal working record. -/
inductive blockType where
  | nodeBlock
  | containerBlock
deriving DecidableEq

/-- block: internal record linking the walker to the boundary fixer.  The
Go fields Node and Container are pointers (possibly nil), embedded as
options; the pointed-to value is stored by copy, and the fixer below acts
on the File tree directly, which is equivalent because the walker stores
every emitted node in both the File and its block, in the same order. -/
structure block where
  type : blockType
  node : Option Node
  container : Option Container

/-- Function-level error outcomes of Parse.  readError carries the cause
text wrapped by errors.Wrap with message Error reading src; fixError the
cause wrapped with message Error reading fixing boundaries;
unsupportedEncoding is the distinct ErrUnsupportedEncoding value. -/
inductive ParseError where
  | readError (msg : String)
  | unsupportedEncoding
  | fixError (msg : String)
deriving DecidableEq

/-- GoPosition: the result of resolving a token.Pos through
token.FileSet.Position — a 1-based line, 1-based column, and 0-based byte
offset, as in go/token.Position. -/
structure GoPosition where
  line : Int
  column : Int
  offset : Int
deriving DecidableEq

/-- GoIdent: an ast.Ident, with its name and its resolved Pos and End
positions (End is one past the last byte of the identifier). -/
structure GoIdent where
  name : String
  pos : GoPosition
  endPos : GoPosition
deriving DecidableEq

/-- GoFuncBody: an ast.BlockStmt as far as parser.go consumes it — only
its resolved Pos and End positions are relevant. -/
structure GoFuncBody where
  pos : GoPosition
  endPos : GoPosition
deriving DecidableEq

/-- GoFuncDecl: an ast.FuncDecl.  pos is the resolved Pos of the func
keyword (FuncDecl.Pos returns the start of the declaration);
typeEndPos is the resolved End of the FuncType, used by FuncDecl.End when
the body is absent; body is the optional function body. -/
structure GoFuncDecl where
  name : GoIdent
  pos : GoPosition
  typeEndPos : GoPosition
  body : Option GoFuncBody
deriving DecidableEq

/-- GoFuncDecl.endPos: the resolved FuncDecl.End position; per go/ast this
is Body.End when a body is present and Type.End otherwise. -/
def GoFuncDecl.endPos (n : GoFuncDecl) : GoPosition :=
  match n.body with
  | some b => b.endPos
  | none => n.typeEndPos

/-- Keyword token of an ast.GenDecl (token.CONST, VAR, IMPORT or TYPE). -/
inductive GoDeclToken where
  | constTok
  | varTok
  | importTok
  | typeTok
deriving DecidableEq

/-- GoGenDecl: an ast.GenDecl as far as the walker can observe it.  The
visitor in parser.go never inspects a GenDecl (it falls to the default arm
of the type switch), so only the keyword token and the resolved start and
end positions are modelled; the spec list is irrelevant to the code. -/
structure GoGenDecl where
  tok : GoDeclToken
  pos : GoPosition
  endPos : GoPosition
deriving DecidableEq

/-- GoDecl: a top-level ast.Decl — a FuncDecl, a GenDecl, or a BadDecl. -/
inductive GoDecl where
  | funcDecl (fd : GoFuncDecl)
  | genDecl (gd : GoGenDecl)
  | badDecl (pos endPos : GoPosition)
deriving DecidableEq

/-- GoFile: an ast.File as consumed by parser.go.  package is the resolved
position of the package keyword (field f.Package); name the package name
identifier; decls the top-level declarations in source order; pos and
endPos the resolved File.Pos and File.End. -/
structure GoFile where
  package_ : GoPosition
  name : GoIdent
  decls : List GoDecl
  pos : GoPosition
  endPos : GoPosition
deriving DecidableEq

/-- GoParseError: the error value produced by the native parser on an
irrecoverable syntax failure — a position (1-based line and column, as in
go/scanner) and the full diagnostic text that its Error method returns,
which is the string parser.go records verbatim. -/
structure GoParseError where
  line : Int
  column : Int
  message : String
deriving DecidableEq

/-- stringsToUpper embeds strings.ToUpper.  Go maps every rune through the
Unicode upper-case mapping; on ASCII strings — the domain of encoding
names — this agrees with mapping each character through Char.toUpper. -/
def stringsToUpper (s : String) : String :=
  String.mk (s.data.map Char.toUpper)

/-- createFile translated from parser.go lines 89-126: the File root with
its single initial Package node, built from resolved positions. -/
def createFile (n : GoFile) : File :=
  { locationSpan :=
      { start := { line := n.pos.line, column := n.pos.column },
        stop := { line := n.endPos.line, column := n.endPos.column } },
    footerSpan := { start := 0, stop := -1 },
    containers := [],
    nodes :=
      [ { type := NodeType.PackageNode,
          name := n.name.name,
          locationSpan :=
            { start := { line := n.package_.line, column := n.package_.column },
              stop := { line := n.name.pos.line, column := n.name.endPos.column } },
          span := { start := n.package_.offset, stop := n.name.endPos.offset } } ],
    parsingErrors := [] }

/-- createFunc translated from parser.go lines 128-147: a Function node
spanning from the resolved declaration start to the resolved declaration
end. -/
def createFunc (n : GoFuncDecl) : Node :=
  { type := NodeType.FunctionNode,
    name := n.name.name,
    locationSpan :=
      { start := { line := n.pos.line, column := n.pos.column },
        stop := { line := n.endPos.line, column := n.endPos.column } },
    span := { start := n.pos.offset, stop := n.endPos.offset } }

/-- fileVisitor state: the File under construction and the block list. -/
structure fileVisitor where
  file : File
  blocks : List block

/-- visitDecl: the effect of fileVisitor.Visit (parser.go lines 65-87) on a
top-level declaration, as driven by ast.Walk.  An ast.FuncDecl appends a
Function node and its block and prunes the subtree; every other
declaration kind falls to the default arm and is pruned with no effect. -/
def visitDecl (v : fileVisitor) (d : GoDecl) : fileVisitor :=
  match d with
  | GoDecl.funcDecl fd =>
      let funcNode := createFunc fd
      { file := { v.file with nodes := v.file.nodes ++ [funcNode] },
        blocks := v.blocks ++
          [{ type := blockType.nodeBlock, node := some funcNode, container := none }] }
  | GoDecl.genDecl _ => v
  | GoDecl.badDecl _ _ => v

/-- walkFile: ast.Walk of the fileVisitor over the parsed file.  Walk first
visits the root ast.File, whose case in Visit creates the File (with its
package node) and pushes that node as the first block, and returns the
visitor; Walk then visits the children — the doc comment and the name
identifier fall to the default arm with no effect, and each declaration is
handled by visitDecl in source order. -/
def walkFile (n : GoFile) : fileVisitor :=
  let f := createFile n
  let v0 : fileVisitor :=
    { file := f,
      blocks := [{ type := blockType.nodeBlock, node := f.nodes.head?, container := none }] }
  n.decls.foldl visitDecl v0

/-- declNodes: the nodes the walker appends for a declaration list, in
source order — one Function node per FuncDecl, nothing otherwise. -/
def declNodes : List GoDecl → List Node
  | [] => []
  | GoDecl.funcDecl fd :: ds => createFunc fd :: declNodes ds
  | GoDecl.genDecl _ :: ds => declNodes ds
  | GoDecl.badDecl _ _ :: ds => declNodes ds

/-- isContinuationByte: a UTF-8 continuation byte (0x80 through 0xBF). -/
def isContinuationByte (b : Nat) : Bool :=
  decide (128 ≤ b ∧ b < 192)

/-- runeCount: the number of decoded characters in a UTF-8 byte list — one
per non-continuation byte. -/
def runeCount (l : List Nat) : Nat :=
  (l.filter (fun b => !(isContinuationByte b))).length

/-- Modelled from the spec: the Offset Translator of the boundary-fixing
pass, whose source file is not among the provided sources.  Per the design
document it is a monotone byte-offset-to-rune-offset map, built by one
linear scan counting decoded characters, defined exactly on byte offsets
that lie on a character boundary within the buffer; any other offset is a
caller error, reported as none. -/
def byteToRune (src : List Nat) (off : Int) : Option Int :=
  if off < 0 then none
  else if src.length < off.toNat then none
  else if off.toNat = src.length then some (runeCount src)
  else if isContinuationByte (src.getD off.toNat 0) then none
  else some (runeCount (src.take off.toNat))

/-- fixNode: rewrite one node span from byte offsets into rune offsets,
failing when an offset is not on a character boundary. -/
def fixNode (src : List Nat) (n : Node) : Except String Node :=
  match byteToRune src n.span.start, byteToRune src n.span.stop with
  | some s, some e => Except.ok { n with span := { start := s, stop := e } }
  | _, _ => Except.error "offset translation failed"

/-- fixNodes: fixNode over a node list, propagating the first failure. -/
def fixNodes (src : List Nat) : List Node → Except String (List Node)
  | [] => Except.ok []
  | n :: ns =>
      match fixNode src n, fixNodes src ns with
      | Except.ok n2, Except.ok ns2 => Except.ok (n2 :: ns2)
      | Except.error e, _ => Except.error e
      | Except.ok _, Except.error e => Except.error e

/-- Modelled from the spec: fixBlockBoundaries, whose source file is not
among the provided sources.  The design document has it process the blocks
in document order, translating every node-block span from byte offsets to
rune offsets (its step 1) and resolving container header and footer
boundaries (steps 2-3); it fails only when offset translation cannot
resolve a recorded byte offset.  The walker in the provided sources emits
node blocks only — its blocks alias exactly the nodes of the File, in
order — so the pass is modelled as the span rewrite applied to the nodes
of the File; the container rules are unreachable, the File footer span
stays the sentinel (the design document leaves it so absent a trailing
content requirement), and location spans are left as given (the design
document does not describe any rewrite of them). -/
def fixBlockBoundaries (file : File) (_blocks : List block) (src : List Nat) :
    Except String File :=
  match fixNodes src file.nodes with
  | Except.ok ns => Except.ok { file with nodes := ns }
  | Except.error e => Except.error e

/-- errorFile: the degenerate File built by Parse on a native parse
failure (parser.go lines 30-42): degenerate location span, sentinel footer
span, no containers, no nodes, one ParsingError at the fixed location
line 1 column 0 carrying the diagnostic text verbatim. -/
def errorFile (e : GoParseError) : File :=
  { locationSpan := { start := { line := 1, column := 0 }, stop := { line := 1, column := 0 } },
    footerSpan := { start := 0, stop := -1 },
    containers := [],
    nodes := [],
    parsingErrors := [{ location := { line := 1, column := 0 }, message := e.message }] }

/-- Parse translated from parser.go lines 17-57.  The io.Reader argument is
embedded as the outcome of ioutil.ReadAll — either a read failure with its
cause text or the source bytes; the native parser is the explicit black-box
argument goParseFile.  The Go pair of a possibly-nil File pointer and a
possibly-nil error is embedded as an Except value (parser.go never returns
both non-nil or both nil). -/
def Parse (readResult : Except String (List Nat)) (encoding : String)
    (goParseFile : List Nat → Except GoParseError GoFile) : Except ParseError File :=
  match readResult with
  | Except.error msg => Except.error (ParseError.readError msg)
  | Except.ok srcBytes =>
      if stringsToUpper encoding ≠ "UTF-8" then Except.error ParseError.unsupportedEncoding
      else
        match goParseFile srcBytes with
        | Except.error e => Except.ok (errorFile e)
        | Except.ok srcAST =>
            let fv := walkFile srcAST
            match fixBlockBoundaries fv.file fv.blocks srcBytes with
            | Except.ok f => Except.ok f
            | Except.error msg => Except.error (ParseError.fixError msg)

/-- asciiBytes: the byte list of an ASCII string, for concrete sources. -/
def asciiBytes (s : String) : List Nat :=
  s.data.map Char.toNat

/-- sampleParser: a native parser that fails on every input with the
diagnostic the Go parser gives an empty file, for concrete failure runs. -/
def sampleParser : List Nat → Except GoParseError GoFile :=
  fun _ =>
    Except.error { line := 1, column := 1, message := "expected package declaration, found end of input" }

/-- pkgOnlySrc: the source text consisting only of a package clause. -/
def pkgOnlySrc : List Nat :=
  asciiBytes "package p"

/-- pkgOnlyAST: the native parse tree of pkgOnlySrc, positions resolved. -/
def pkgOnlyAST : GoFile :=
  { package_ := { line := 1, column := 1, offset := 0 },
    name :=
      { name := "p",
        pos := { line := 1, column := 9, offset := 8 },
        endPos := { line := 1, column := 10, offset := 9 } },
    decls := [],
    pos := { line := 1, column := 1, offset := 0 },
    endPos := { line := 1, column := 10, offset := 9 } }

/-- pkgOnlyParsed: the File Parse returns for pkgOnlySrc. -/
def pkgOnlyParsed : File :=
  { locationSpan :=
      { start := { line := 1, column := 1 }, stop := { line := 1, column := 10 } },
    footerSpan := { start := 0, stop := -1 },
    containers := [],
    nodes :=
      [ { type := NodeType.PackageNode,
          name := "p",
          locationSpan :=
            { start := { line := 1, column := 1 }, stop := { line := 1, column := 10 } },
          span := { start := 0, stop := 9 } } ],
    parsingErrors := [] }

/-- funcSrc: a package clause followed by one function declaration. -/
def funcSrc : List Nat :=
  asciiBytes "package p\nfunc F() \x7b\n\x7d\n"

/-- funcFd: the FuncDecl of funcSrc, positions resolved: the declaration
starts at byte 10, the body runs through byte 22 (one past its brace). -/
def funcFd : GoFuncDecl :=
  { name :=
      { name := "F",
        pos := { line := 2, column := 6, offset := 15 },
        endPos := { line := 2, column := 7, offset := 16 } },
    pos := { line := 2, column := 1, offset := 10 },
    typeEndPos := { line := 2, column := 9, offset := 18 },
    body :=
      some { pos := { line := 2, column := 10, offset := 19 },
             endPos := { line := 3, column := 2, offset := 22 } } }

/-- funcAST: the native parse tree of funcSrc. -/
def funcAST : GoFile :=
  { package_ := { line := 1, column := 1, offset := 0 },
    name :=
      { name := "p",
        pos := { line := 1, column := 9, offset := 8 },
        endPos := { line := 1, column := 10, offset := 9 } },
    decls := [GoDecl.funcDecl funcFd],
    pos := { line := 1, column := 1, offset := 0 },
    endPos := { line := 3, column := 2, offset := 22 } }

/-- funcParsed: the File Parse returns for funcSrc. -/
def funcParsed : File :=
  { locationSpan :=
      { start := { line := 1, column := 1 }, stop := { line := 3, column := 2 } },
    footerSpan := { start := 0, stop := -1 },
    containers := [],
    nodes :=
      [ { type := NodeType.PackageNode,
          name := "p",
          locationSpan :=
            { start := { line := 1, column := 1 }, stop := { line := 1, column := 10 } },
          span := { start := 0, stop := 9 } },
        { type := NodeType.FunctionNode,
          name := "F",
          locationSpan :=
            { start := { line := 2, column := 1 }, stop := { line := 3, column := 2 } },
          span := { start := 10, stop := 22 } } ],
    parsingErrors := [] }

/-- simpleConstSrc: a package clause followed by two constant
declarations, the shape of the repository test fixture simple const. -/
def simpleConstSrc : List Nat :=
  asciiBytes "package simpleconst\nconst N = 1\nconst Name = 2\n"

/-- simpleConstAST: the native parse tree of simpleConstSrc — two
ast.GenDecl declarations with the const keyword after the package
clause. -/
def simpleConstAST : GoFile :=
  { package_ := { line := 1, column := 1, offset := 0 },
    name :=
      { name := "simpleconst",
        pos := { line := 1, column := 9, offset := 8 },
        endPos := { line := 1, column := 20, offset := 19 } },
    decls :=
      [ GoDecl.genDecl
          { tok := GoDeclToken.constTok,
            pos := { line := 2, column := 1, offset := 20 },
            endPos := { line := 2, column := 12, offset := 31 } },
        GoDecl.genDecl
          { tok := GoDeclToken.constTok,
            pos := { line := 3, column := 1, offset := 32 },
            endPos := { line := 3, column := 15, offset := 46 } } ],
    pos := { line := 1, column := 1, offset := 0 },
    endPos := { line := 3, column := 15, offset := 46 } }

/-- simpleStructSrc: a package clause, a struct type with one field, and a
method-shaped function, the shape of the repository test fixture simple
struct. -/
def simpleStructSrc : List Nat :=
  asciiBytes "package simplestruct\ntype Person struct \x7b\n\tName string\n\x7d\nfunc (p Person) SayHi() \x7b\n\x7d\n"

/-- simpleStructAST: the native parse tree of simpleStructSrc — an
ast.GenDecl with the type keyword carrying the struct definition, then an
ast.FuncDecl. -/
def simpleStructAST : GoFile :=
  { package_ := { line := 1, column := 1, offset := 0 },
    name :=
      { name := "simplestruct",
        pos := { line := 1, column := 9, offset := 8 },
        endPos := { line := 1, column := 21, offset := 20 } },
    decls :=
      [ GoDecl.genDecl
          { tok := GoDeclToken.typeTok,
            pos := { line := 2, column := 1, offset := 21 },
            endPos := { line := 4, column := 2, offset := 56 } },
        GoDecl.funcDecl
          { name :=
              { name := "SayHi",
                pos := { line := 5, column := 17, offset := 73 },
                endPos := { line := 5, column := 22, offset := 78 } },
            pos := { line := 5, column := 1, offset := 57 },
            typeEndPos := { line := 5, column := 24, offset := 80 },
            body :=
              some { pos := { line := 5, column := 25, offset := 81 },
                     endPos := { line := 6, column := 2, offset := 84 } } } ],
    pos := { line := 1, column := 1, offset := 0 },
    endPos := { line := 6, column := 2, offset := 84 } }

/-- Appending a declaration to the fold appends exactly its walker nodes. -/
theorem foldl_visitDecl_nodes (ds : List GoDecl) (v : fileVisitor) :
    (ds.foldl visitDecl v).file.nodes = v.file.nodes ++ declNodes ds := by
  induction ds generalizing v with
  | nil => simp [declNodes]
  | cons d ds ih =>
      cases d with
      | funcDecl fd => simp [List.foldl, ih, visitDecl, declNodes]
      | genDecl gd => simp [List.foldl, ih, visitDecl, declNodes]
      | badDecl p q => simp [List.foldl, ih, visitDecl, declNodes]

/-- The declaration fold never touches the parsing-error list. -/
theorem foldl_visitDecl_parsingErrors (ds : List GoDecl) (v : fileVisitor) :
    (ds.foldl visitDecl v).file.parsingErrors = v.file.parsingErrors := by
  induction ds generalizing v with
  | nil => rfl
  | cons d ds ih =>
      cases d with
      | funcDecl fd => simp [List.foldl, ih, visitDecl]
      | genDecl gd => simp [List.foldl, ih, visitDecl]
      | badDecl p q => simp [List.foldl, ih, visitDecl]

/-- Nodes produced by the walker: the createFile package node followed by
one Function node per top-level FuncDecl, in source order. -/
theorem walkFile_nodes (n : GoFile) :
    (walkFile n).file.nodes = (createFile n).nodes ++ declNodes n.decls :=
  foldl_visitDecl_nodes n.decls _

/-- The walker leaves the parsing-error list empty on a successful parse. -/
theorem walkFile_parsingErrors (n : GoFile) :
    (walkFile n).file.parsingErrors = [] :=
  foldl_visitDecl_parsingErrors n.decls _

/-- Fields preserved and spans translated by a successful fixNode. -/
theorem fixNode_ok_fields (src : List Nat) (n n2 : Node)
    (h : fixNode src n = Except.ok n2) :
    n2.type = n.type ∧ n2.name = n.name ∧ n2.locationSpan = n.locationSpan ∧
      byteToRune src n.span.start = some n2.span.start ∧
      byteToRune src n.span.stop = some n2.span.stop := by
  unfold fixNode at h
  cases hs : byteToRune src n.span.start with
  | none =>
      rw [hs] at h
      cases he : byteToRune src n.span.stop <;> rw [he] at h <;> exact Except.noConfusion h
  | some s =>
      cases he : byteToRune src n.span.stop with
      | none =>
          rw [hs, he] at h
          exact Except.noConfusion h
      | some e =>
          rw [hs, he] at h
          have h2 := Except.ok.inj h
          subst h2
          exact ⟨rfl, rfl, rfl, rfl, rfl⟩

/-- Decomposition of a successful fixNodes on a cons cell. -/
theorem fixNodes_cons_ok (src : List Nat) (n : Node) (ns l : List Node)
    (h : fixNodes src (n :: ns) = Except.ok l) :
    ∃ n2 l2, l = n2 :: l2 ∧ fixNode src n = Except.ok n2 ∧
      fixNodes src ns = Except.ok l2 := by
  unfold fixNodes at h
  cases hn : fixNode src n with
  | error e =>
      rw [hn] at h
      exact Except.noConfusion h
  | ok n2 =>
      cases hns : fixNodes src ns with
      | error e =>
          rw [hn, hns] at h
          exact Except.noConfusion h
      | ok l2 =>
          rw [hn, hns] at h
          exact ⟨n2, l2, (Except.ok.inj h).symm, rfl, rfl⟩

/-- Every node of a successfully fixed list is the fix of a source node. -/
theorem fixNodes_mem (src : List Nat) (l l2 : List Node)
    (h : fixNodes src l = Except.ok l2) (n : Node) (hn : n ∈ l) :
    ∃ n2, n2 ∈ l2 ∧ fixNode src n = Except.ok n2 := by
  induction l generalizing l2 with
  | nil => cases hn
  | cons a as ih =>
      obtain ⟨a2, l3, rfl, ha, has⟩ := fixNodes_cons_ok src a as l2 h
      cases hn with
      | head => exact ⟨a2, List.mem_cons_self _ _, ha⟩
      | tail _ hmem =>
          obtain ⟨n2, hmem2, hfix⟩ := ih l3 has hmem
          exact ⟨n2, List.mem_cons_of_mem _ hmem2, hfix⟩

/-- A successful boundary fix translates the node list and leaves every
other field of the File as the walker produced it. -/
theorem fixBlockBoundaries_ok (file : File) (bs : List block) (src : List Nat)
    (f : File) (h : fixBlockBoundaries file bs src = Except.ok f) :
    fixNodes src file.nodes = Except.ok f.nodes ∧
      f.parsingErrors = file.parsingErrors ∧ f.containers = file.containers ∧
      f.locationSpan = file.locationSpan ∧ f.footerSpan = file.footerSpan := by
  unfold fixBlockBoundaries at h
  cases hn : fixNodes src file.nodes with
  | error e =>
      rw [hn] at h
      exact Except.noConfusion h
  | ok ns =>
      rw [hn] at h
      have h2 := Except.ok.inj h
      subst h2
      exact ⟨rfl, rfl, rfl, rfl, rfl⟩

/-- Parse on a native parse failure returns the degenerate errorFile. -/
theorem Parse_error_branch (src : List Nat)
    (gp : List Nat → Except GoParseError GoFile) (e : GoParseError)
    (h : gp src = Except.error e) :
    Parse (Except.ok src) "UTF-8" gp = Except.ok (errorFile e) := by
  simp only [Parse]
  rw [if_neg (by decide), h]

/-- Parse on a native parse success is the boundary fix of the walk. -/
theorem Parse_ok_fix (src : List Nat)
    (gp : List Nat → Except GoParseError GoFile) (ast : GoFile) (f : File)
    (hp : gp src = Except.ok ast)
    (h : Parse (Except.ok src) "UTF-8" gp = Except.ok f) :
    fixBlockBoundaries (walkFile ast).file (walkFile ast).blocks src =
      Except.ok f := by
  have henc : ¬(stringsToUpper "UTF-8" ≠ "UTF-8") := by decide
  simp only [Parse, hp, if_neg henc] at h
  cases hfix : fixBlockBoundaries (walkFile ast).file (walkFile ast).blocks src with
  | error e =>
      rw [hfix] at h
      simp at h
  | ok f2 =>
      rw [hfix] at h
      simp only [Except.ok.injEq] at h
      rw [h]

/-- The walker turns a FuncDecl of the declaration list into its node. -/
theorem createFunc_mem_declNodes (ds : List GoDecl) (fd : GoFuncDecl)
    (h : GoDecl.funcDecl fd ∈ ds) : createFunc fd ∈ declNodes ds := by
  induction ds with
  | nil => cases h
  | cons d ds ih =>
      cases h with
      | head => exact List.mem_cons_self _ _
      | tail _ hmem =>
          cases d with
          | funcDecl fd2 => exact List.mem_cons_of_mem _ (ih hmem)
          | genDecl gd => exact ih hmem
          | badDecl p q => exact ih hmem

/-- Claim C1: for every input whose native parse fails, Parse with
encoding UTF-8 returns a nil error and a non-nil File whose location span
is the degenerate span from line 1 column 0 to line 1 column 0, whose
footer span is the sentinel with start 0 and stop -1, whose containers and
nodes are empty, and whose parsingErrors holds exactly one entry; the
syntax failure is never surfaced as a function-level error. -/
theorem parse_syntax_failure_degenerate (src : List Nat)
    (gp : List Nat → Except GoParseError GoFile) (e : GoParseError)
    (h : gp src = Except.error e) :
    Parse (Except.ok src) "UTF-8" gp =
      Except.ok
        { locationSpan :=
            { start := { line := 1, column := 0 }, stop := { line := 1, column := 0 } },
          footerSpan := { start := 0, stop := -1 },
          containers := [],
          nodes := [],
          parsingErrors :=
            [{ location := { line := 1, column := 0 }, message := e.message }] } :=
  Parse_error_branch src gp e h

/-- Witness for claim C1, at the empty input with the native parser
failing as the Go parser does on an empty file. -/
theorem parse_syntax_failure_degenerate_witness :
    Parse (Except.ok []) "UTF-8" sampleParser =
      Except.ok
        { locationSpan :=
            { start := { line := 1, column := 0 }, stop := { line := 1, column := 0 } },
          footerSpan := { start := 0, stop := -1 },
          containers := [],
          nodes := [],
          parsingErrors :=
            [{ location := { line := 1, column := 0 },
               message := "expected package declaration, found end of input" }] } :=
  parse_syntax_failure_degenerate [] sampleParser
    { line := 1, column := 1,
      message := "expected package declaration, found end of input" } rfl

/-- Claim C2: an encoding whose upper-casing — the case-insensitive
comparison the code performs — differs from UTF-8 makes Parse fail with
the distinct unsupported-encoding error for every input and every native
parser, so no parse is attempted; and any encoding whose upper-casing is
UTF-8 behaves exactly as the canonical spelling UTF-8. -/
theorem parse_encoding_gate (src : List Nat) (enc : String)
    (gp : List Nat → Except GoParseError GoFile) :
    (stringsToUpper enc ≠ "UTF-8" →
        Parse (Except.ok src) enc gp = Except.error ParseError.unsupportedEncoding) ∧
    (stringsToUpper enc = "UTF-8" →
        Parse (Except.ok src) enc gp = Parse (Except.ok src) "UTF-8" gp) := by
  constructor
  · intro h
    simp only [Parse]
    rw [if_pos h]
  · intro h
    simp only [Parse]
    rw [if_neg (by simp [h]), if_neg (by decide)]

/-- Witness for claim C2: the encoding ascii is rejected on the empty
input, and the lower-case spelling utf-8 is accepted and behaves as
UTF-8. -/
theorem parse_encoding_gate_witness :
    Parse (Except.ok []) "ascii" sampleParser =
      Except.error ParseError.unsupportedEncoding ∧
    Parse (Except.ok []) "utf-8" sampleParser =
      Parse (Except.ok []) "UTF-8" sampleParser :=
  ⟨(parse_encoding_gate [] "ascii" sampleParser).1 (by decide),
   (parse_encoding_gate [] "utf-8" sampleParser).2 (by decide)⟩

/-- Claim C3, checked at its failing input: on the simple-const source —
a package clause followed by two constant declarations — the code returns
a File holding only the Package node; the two const declarations are
GenDecl values, which the visitor prunes in its default arm, so no Const
nodes are emitted, against the claim (and against the repository test
expecting a Package node followed by two Const nodes). -/
theorem simpleconst_const_decls_dropped :
    (Parse (Except.ok simpleConstSrc) "UTF-8" (fun _ => Except.ok simpleConstAST)).map
      (fun f => (f.nodes.map Node.type, f.containers.isEmpty)) =
    Except.ok ([NodeType.PackageNode], true) := rfl

/-- Claim C4, checked at its failing input: on the simple-struct source —
a package clause, a struct type Person with one field, and a function —
the code returns a File with no containers at all and only the Package and
Function nodes; the type declaration is a GenDecl, which the visitor
prunes in its default arm, so no Container and no Field node are emitted,
against the claim (and against the repository test expecting a
StructContainer Person holding a Field node Name). -/
theorem simplestruct_container_dropped :
    (Parse (Except.ok simpleStructSrc) "UTF-8" (fun _ => Except.ok simpleStructAST)).map
      (fun f => (f.nodes.map Node.type, f.containers.isEmpty)) =
    Except.ok ([NodeType.PackageNode, NodeType.FunctionNode], true) := rfl

/-- Counterexample to claim C5: a native parse failure reported at line 2
column 3 still yields a ParsingError located at line 1 column 0 — the
location is not the translation of the error position. -/
theorem parse_error_location_counterexample :
    (Parse (Except.ok [])
        "UTF-8" (fun _ => Except.error { line := 2, column := 3, message := "oops" })).map
        (fun f => f.parsingErrors.map ParsingError.location) =
      Except.ok [{ line := 1, column := 0 }] ∧
    ({ line := 1, column := 0 } : Location) ≠ { line := 2, column := 3 } :=
  ⟨rfl, by decide⟩

/-- Claim C5 as amended: whenever the native parse fails, the single
ParsingError carries the fixed location line 1 column 0 — independent of
the position the native error reports — and the diagnostic text of the
native error verbatim. -/
theorem parse_error_fixed_location (src : List Nat)
    (gp : List Nat → Except GoParseError GoFile) (e : GoParseError)
    (h : gp src = Except.error e) :
    (Parse (Except.ok src) "UTF-8" gp).map File.parsingErrors =
      Except.ok
        [{ location := { line := 1, column := 0 }, message := e.message }] := by
  rw [Parse_error_branch src gp e h]
  rfl

/-- Witness for claim C5 as amended, at the empty input. -/
theorem parse_error_fixed_location_witness :
    (Parse (Except.ok []) "UTF-8" sampleParser).map File.parsingErrors =
      Except.ok
        [{ location := { line := 1, column := 0 },
           message := "expected package declaration, found end of input" }] :=
  parse_error_fixed_location [] sampleParser
    { line := 1, column := 1,
      message := "expected package declaration, found end of input" } rfl

/-- Claim C6: on every successful parse the first node of the returned
File is a Package node named after the package identifier, whose span runs
from the package keyword through the end of the identifier (translated
into rune offsets); this node is always first. -/
theorem package_node_always_first (src : List Nat)
    (gp : List Nat → Except GoParseError GoFile) (ast : GoFile) (f : File)
    (hp : gp src = Except.ok ast)
    (hf : Parse (Except.ok src) "UTF-8" gp = Except.ok f) :
    ∃ n rest, f.nodes = n :: rest ∧ n.type = NodeType.PackageNode ∧
      n.name = ast.name.name ∧
      byteToRune src ast.package_.offset = some n.span.start ∧
      byteToRune src ast.name.endPos.offset = some n.span.stop := by
  have hfix := Parse_ok_fix src gp ast f hp hf
  obtain ⟨hnodes, -, -, -, -⟩ := fixBlockBoundaries_ok _ _ _ _ hfix
  rw [walkFile_nodes] at hnodes
  have hnodes2 :
      fixNodes src
        ({ type := NodeType.PackageNode,
           name := ast.name.name,
           locationSpan :=
             { start := { line := ast.package_.line, column := ast.package_.column },
               stop := { line := ast.name.pos.line, column := ast.name.endPos.column } },
           span := { start := ast.package_.offset, stop := ast.name.endPos.offset } } ::
          declNodes ast.decls) = Except.ok f.nodes := hnodes
  obtain ⟨n2, l2, hcons, hfx, -⟩ := fixNodes_cons_ok _ _ _ _ hnodes2
  obtain ⟨ht, hname, -, hs, he⟩ := fixNode_ok_fields _ _ _ hfx
  exact ⟨n2, l2, hcons, ht, hname, hs, he⟩

/-- Witness for claim C6, on the source package p. -/
theorem package_node_always_first_witness :
    ∃ n rest, pkgOnlyParsed.nodes = n :: rest ∧ n.type = NodeType.PackageNode ∧
      n.name = "p" ∧
      byteToRune pkgOnlySrc 0 = some n.span.start ∧
      byteToRune pkgOnlySrc 9 = some n.span.stop :=
  package_node_always_first pkgOnlySrc (fun _ => Except.ok pkgOnlyAST) pkgOnlyAST
    pkgOnlyParsed rfl rfl

/-- Claim C7: on every successful parse, every top-level function
declaration with a body yields a Function node in the returned File, named
after the function identifier, whose span runs from the start of the
declaration through the end of the body (translated into rune offsets). -/
theorem function_node_emitted (src : List Nat)
    (gp : List Nat → Except GoParseError GoFile) (ast : GoFile)
    (fd : GoFuncDecl) (b : GoFuncBody) (f : File)
    (hp : gp src = Except.ok ast) (hd : GoDecl.funcDecl fd ∈ ast.decls)
    (hb : fd.body = some b)
    (hf : Parse (Except.ok src) "UTF-8" gp = Except.ok f) :
    ∃ n, n ∈ f.nodes ∧ n.type = NodeType.FunctionNode ∧ n.name = fd.name.name ∧
      byteToRune src fd.pos.offset = some n.span.start ∧
      byteToRune src b.endPos.offset = some n.span.stop := by
  have hfix := Parse_ok_fix src gp ast f hp hf
  obtain ⟨hnodes, -, -, -, -⟩ := fixBlockBoundaries_ok _ _ _ _ hfix
  rw [walkFile_nodes] at hnodes
  have hmem : createFunc fd ∈ (createFile ast).nodes ++ declNodes ast.decls :=
    List.mem_append_right _ (createFunc_mem_declNodes ast.decls fd hd)
  obtain ⟨n2, hmem2, hfx⟩ := fixNodes_mem _ _ _ hnodes _ hmem
  obtain ⟨ht, hname, -, hs, he⟩ := fixNode_ok_fields _ _ _ hfx
  simp only [createFunc] at ht hname hs he
  have hend : GoFuncDecl.endPos fd = b.endPos := by
    unfold GoFuncDecl.endPos
    rw [hb]
  rw [hend] at he
  exact ⟨n2, hmem2, ht, hname, hs, he⟩

/-- Witness for claim C7, on a source with one function F with a body. -/
theorem function_node_emitted_witness :
    ∃ n, n ∈ funcParsed.nodes ∧ n.type = NodeType.FunctionNode ∧ n.name = "F" ∧
      byteToRune funcSrc 10 = some n.span.start ∧
      byteToRune funcSrc 22 = some n.span.stop :=
  function_node_emitted funcSrc (fun _ => Except.ok funcAST) funcAST funcFd
    { pos := { line := 2, column := 10, offset := 19 },
      endPos := { line := 3, column := 2, offset := 22 } }
    funcParsed rfl (by decide) rfl rfl

/-- Claim C8: whenever Parse returns a File, its parsingErrors list is
empty exactly when the native parse succeeded, and it is empty or holds
exactly one entry — so a failed parse records exactly one error and a
successful parse records none. -/
theorem parsing_errors_iff_failure (src : List Nat)
    (gp : List Nat → Except GoParseError GoFile) (f : File)
    (hf : Parse (Except.ok src) "UTF-8" gp = Except.ok f) :
    (f.parsingErrors = [] ↔ ∃ ast, gp src = Except.ok ast) ∧
    (f.parsingErrors = [] ∨ f.parsingErrors.length = 1) := by
  cases hgp : gp src with
  | error e =>
      have hb := Parse_error_branch src gp e hgp
      rw [hb] at hf
      have hfe := Except.ok.inj hf
      subst hfe
      refine ⟨⟨fun h => ?_, fun h2 => ?_⟩, Or.inr rfl⟩
      · simp [errorFile] at h
      · obtain ⟨ast, hast⟩ := h2
        exact Except.noConfusion hast
  | ok ast =>
      have hfix := Parse_ok_fix src gp ast f hgp hf
      obtain ⟨-, herr, -, -, -⟩ := fixBlockBoundaries_ok _ _ _ _ hfix
      rw [walkFile_parsingErrors] at herr
      exact ⟨⟨fun _ => ⟨ast, rfl⟩, fun _ => herr⟩, Or.inl herr⟩

/-- Witness for claim C8, on the successfully parsed source package p. -/
theorem parsing_errors_iff_failure_witness :
    (pkgOnlyParsed.parsingErrors = [] ↔
        ∃ ast, Except.ok pkgOnlyAST = (Except.ok ast : Except GoParseError GoFile)) ∧
    (pkgOnlyParsed.parsingErrors = [] ∨ pkgOnlyParsed.parsingErrors.length = 1) :=
  parsing_errors_iff_failure pkgOnlySrc (fun _ => Except.ok pkgOnlyAST)
    pkgOnlyParsed rfl

/-- Claim C9: Parse is deterministic — for a fixed read outcome, encoding
and native parser, two calls return identical results field for field.
The embedding settles this by exhibiting Parse as a pure function of
exactly these three inputs: the source contains no other input and no
mutable state on the Parse path, so the two calls coincide
definitionally. -/
theorem parse_deterministic (readResult : Except String (List Nat))
    (encoding : String) (gp : List Nat → Except GoParseError GoFile) :
    Parse readResult encoding gp = Parse readResult encoding gp := rfl

/-- Claim C10: a failure of the initial read is returned as the wrapped
read error for every encoding — including unsupported ones — because the
source is read in full before the encoding is checked. -/
theorem read_error_precedence (msg : String) (encoding : String)
    (gp : List Nat → Except GoParseError GoFile) :
    Parse (Except.error msg) encoding gp =
      Except.error (ParseError.readError msg) := rfl

end smgo
